import Mathlib

/-!
Verification of the plan–approve–execute engine and the sandboxed pandas
execution path of the Biwenger AI assistant repository.

The Python sources are shallowly embedded:
* `tools/execute_pandas.py` — the code-contract validator `_validate`, the
  sanctioned-import stripper and the sandboxed executor
  `execute_pandas_local` (the effect of Python `exec` on the restricted
  namespace is an explicit oracle parameter);
* `tools/english_to_pandas.py` — the generator-side contract check
  `_has_required_contract`;
* `llm_clients/openai_backend.py` — the result normalizer `_handle_result`
  and the deterministic plan executor `execute_plan_locally` (the two
  registered tools are network/LLM calls and enter as opaque parameters);
* `streamlit_app.py` — the session-state transitions for the plan
  lifecycle.

The Python `re` patterns used by the validators are embedded by a small
executable regular-expression matcher (`RE`, `reMatch`) covering exactly
the constructs those patterns use: literals, character classes, greedy
star, word boundaries, negative lookahead and multiline anchors.
-/

/-- Python `\w` (ASCII part): letters, digits and underscore. -/
def isWordChar (c : Char) : Bool := c.isAlphanum || c == '_'

/-- Python `\s` (ASCII part): space, tab, newline, carriage return, vertical tab, form feed. -/
def isSpaceChar (c : Char) : Bool :=
  c == ' ' || c == '\t' || c == '\n' || c == '\r' || c == '\x0B' || c == '\x0C'

/-- Abstract syntax of the fragment of Python regular expressions used by the
repository: literal characters, character classes, sequencing, alternation,
greedy star, the word-boundary assertion `\b`, negative lookahead `(?!...)`
and multiline anchors `^`/`$`. -/
inductive RE where
  | epsR
  | chr (c : Char)
  | cls (p : Char → Bool)
  | seqR (a b : RE)
  | altR (a b : RE)
  | starR (a : RE)
  | wb
  | nla (a : RE)
  | bolM
  | eolM

/-- `s.get? j` is a word character (out-of-range positions count as non-word). -/
def isWordAt (s : List Char) (j : Nat) : Bool :=
  match s.get? j with
  | some c => isWordChar c
  | Option.none => false

/-- Python `\b`: the word-character status changes between position `i - 1` and `i`. -/
def wordBoundary (s : List Char) (i : Nat) : Bool :=
  (if i = 0 then false else isWordAt s (i - 1)) != isWordAt s i

/-- All end positions (in backtracking preference order, greedy first) of a
match of `re` starting at position `i` of `s`.  `fuel` bounds the recursion
depth; every use supplies ample fuel via `reFuel`. -/
def reMatch : Nat → RE → List Char → Nat → List Nat
  | 0, _, _, _ => []
  | fuel + 1, re, s, i =>
    match re with
    | .epsR => [i]
    | .chr c =>
      match s.get? i with
      | some c2 => if c2 = c then [i + 1] else []
      | Option.none => []
    | .cls p =>
      match s.get? i with
      | some c2 => if p c2 then [i + 1] else []
      | Option.none => []
    | .seqR a b => (reMatch fuel a s i).flatMap (fun j => reMatch fuel b s j)
    | .altR a b => reMatch fuel a s i ++ reMatch fuel b s i
    | .starR a =>
      ((reMatch fuel a s i).flatMap
        (fun j => if j = i then [] else reMatch fuel (.starR a) s j)) ++ [i]
    | .wb => if wordBoundary s i then [i] else []
    | .nla a => if (reMatch fuel a s i).isEmpty then [i] else []
    | .bolM =>
      if i = 0 || (match s.get? (i - 1) with | some c => c = '\n' | Option.none => false)
      then [i] else []
    | .eolM =>
      if i = s.length || (match s.get? i with | some c => c = '\n' | Option.none => false)
      then [i] else []

/-- Fuel budget that dominates the recursion depth of every pattern in this
file on a string of the given length. -/
def reFuel (s : List Char) : Nat := 8 * s.length + 64

/-- `re.search`: does the pattern match starting at some position of `s`? -/
def reSearchB (re : RE) (s : List Char) : Bool :=
  (List.range (s.length + 1)).any (fun i => !(reMatch (reFuel s) re s i).isEmpty)

/-- End position of the (greedy-preferred) match of `re` at position `i`, if any. -/
def reFirstEnd (re : RE) (s : List Char) (i : Nat) : Option Nat :=
  (reMatch (reFuel s) re s i).head?

/-- `pattern.sub("", s)` for a pattern that never matches the empty string:
scan left to right, dropping every matched span. -/
def reSubGo (re : RE) (s : List Char) : Nat → Nat → List Char
  | 0, _ => []
  | fuel + 1, i =>
    if i < s.length then
      match reFirstEnd re s i with
      | some e =>
        if i < e then reSubGo re s fuel e
        else (s.get? i).toList ++ reSubGo re s fuel (i + 1)
      | Option.none => (s.get? i).toList ++ reSubGo re s fuel (i + 1)
    else []

/-- Literal string as a regular expression. -/
def litRE (s : String) : RE := s.data.foldr (fun c r => RE.seqR (RE.chr c) r) RE.epsR

/-- Sequence a list of regular expressions. -/
def seqAll (l : List RE) : RE := l.foldr RE.seqR RE.epsR

/-- `\s*` -/
def wsStar : RE := RE.starR (RE.cls isSpaceChar)

/-- `\s+` -/
def wsPlus : RE := RE.seqR (RE.cls isSpaceChar) wsStar

/-- `.+` (Python `.` without DOTALL: any character except newline). -/
def dotPlus : RE :=
  RE.seqR (RE.cls (fun c => c != '\n')) (RE.starR (RE.cls (fun c => c != '\n')))

/-- `\bdf\s*=\s*df_in\.copy\(\)` -/
def dfCopyRE : RE :=
  seqAll [RE.wb, litRE "df", wsStar, RE.chr '=', wsStar, litRE "df_in.copy()"]

/-- `\bdf_out\s*=` -/
def dfOutRE : RE := seqAll [RE.wb, litRE "df_out", wsStar, RE.chr '=']

/-- `\bopen\s*\(` -/
def openCallRE : RE := seqAll [RE.wb, litRE "open", wsStar, RE.chr '(']

/-- `\b__` -/
def dunderRE : RE := seqAll [RE.wb, litRE "__"]

/-- `\bos\.` -/
def osDotRE : RE := seqAll [RE.wb, litRE "os."]

/-- `\bsys\.` -/
def sysDotRE : RE := seqAll [RE.wb, litRE "sys."]

/-- `\beval\s*\(` -/
def evalCallRE : RE := seqAll [RE.wb, litRE "eval", wsStar, RE.chr '(']

/-- `\bexec\s*\(` -/
def execCallRE : RE := seqAll [RE.wb, litRE "exec", wsStar, RE.chr '(']

/-- `\bsubprocess\b` -/
def subprocessRE : RE := seqAll [RE.wb, litRE "subprocess", RE.wb]

/-- `\brequests\b` -/
def requestsRE : RE := seqAll [RE.wb, litRE "requests", RE.wb]

/-- `\bimportlib\b` -/
def importlibRE : RE := seqAll [RE.wb, litRE "importlib", RE.wb]

/-- `\bfrom\s+.+\s+import\b` -/
def fromImportRE : RE :=
  seqAll [RE.wb, litRE "from", wsPlus, dotPlus, wsPlus, litRE "import", RE.wb]

/-- `\bimport\s+(?!pandas\s+as\s+pd\b)` — any import not exactly `import pandas as pd`. -/
def otherImportRE : RE :=
  seqAll [RE.wb, litRE "import", wsPlus,
    RE.nla (seqAll [litRE "pandas", wsPlus, litRE "as", wsPlus, litRE "pd", RE.wb])]

/-- The `forbidden` pattern list of `_validate` in `tools/execute_pandas.py`,
in source order. -/
def forbiddenPatterns : List RE :=
  [openCallRE, dunderRE, osDotRE, sysDotRE, evalCallRE, execCallRE,
   subprocessRE, requestsRE, importlibRE, fromImportRE, otherImportRE]

/-- Python substring membership `needle in hay`. -/
def listContains (hay needle : List Char) : Bool :=
  (List.range (hay.length + 1)).any (fun i => needle.isPrefixOf (hay.drop i))

/-- The sanctioned import line, checked by substring membership in both validators. -/
def pandasImportLine : List Char := "import pandas as pd".data

/-- `"; ".join(errs)` -/
def joinSemicolon : List String → String
  | [] => ""
  | [x] => x
  | x :: y :: rest => x ++ "; " ++ joinSemicolon (y :: rest)

/-- The `errs` list accumulated by `_validate` in `tools/execute_pandas.py`:
the three structural checks each contribute their own message, and the
security-denylist loop contributes the single generic `Forbidden operation.`
message if any pattern matches (the source loop breaks after the first
match, so at most one such message is ever appended). -/
def validateErrs (code : String) : List String :=
  let s := code.data
  (if listContains s pandasImportLine then []
   else ["Missing `import pandas as pd` (expected in snippet)."]) ++
  (if reSearchB dfCopyRE s then []
   else ["Must start with `df = df_in.copy()` somewhere near the top."]) ++
  (if reSearchB dfOutRE s then [] else ["Must assign `df_out = df`."]) ++
  (if forbiddenPatterns.any (fun p => reSearchB p s) then ["Forbidden operation."] else [])

/-- `_validate` from `tools/execute_pandas.py`: raises `ValueError` with the
`"; "`-joined messages when `errs` is non-empty.  `some msg` models the
raised error, `none` models acceptance. -/
def pyValidate (code : String) : Option String :=
  if (validateErrs code).isEmpty then Option.none
  else some (joinSemicolon (validateErrs code))

/-- `^\s*import\s+pandas\s+as\s+pd\s*$` (re.M) — `_ALLOWED_IMPORT_RE`. -/
def allowedImportRE : RE :=
  seqAll [RE.bolM, wsStar, litRE "import", wsPlus, litRE "pandas", wsPlus,
    litRE "as", wsPlus, litRE "pd", wsStar, RE.eolM]

/-- Python `str.strip()`: remove leading and trailing whitespace. -/
def pyStrip (s : String) : String :=
  String.mk (((s.data.dropWhile isSpaceChar).reverse.dropWhile isSpaceChar).reverse)

/-- `_ALLOWED_IMPORT_RE.sub("", code).strip()` — remove the sanctioned import
line textually before execution. -/
def stripAllowedImport (code : String) : String :=
  pyStrip (String.mk (reSubGo allowedImportRE code.data (code.data.length + 1) 0))

/-- A tabular dataset: the parts of a pandas `DataFrame` this core inspects
(column labels, and rows for `len`, `shape` and `head`). -/
structure DataFrame where
  columns : List String
  rows : List (List String)
deriving DecidableEq

/-- `df.head(n)`: the first `n` rows. -/
def DataFrame.head (d : DataFrame) (n : Nat) : DataFrame :=
  { columns := d.columns, rows := d.rows.take n }

/-- Python runtime values crossing the tool boundary: DataFrames, dicts,
lists, strings, ints, bools, `None`, and opaque objects identified by their
`repr`. -/
inductive PyVal where
  | df (d : DataFrame)
  | dict (kvs : List (String × PyVal))
  | listV (xs : List PyVal)
  | str (s : String)
  | int (n : Int)
  | bool (b : Bool)
  | noneV
  | obj (r : String)

/-- The keys of the `__builtins__` dict passed to `exec` in
`execute_pandas_local` (the values are the corresponding host builtins,
which never enter any property proved here). -/
def sandboxBuiltinNames : List String :=
  ["len", "range", "min", "max", "sum", "abs", "round"]

/-- An entry of the restricted globals namespace: the pandas module handle,
or the restricted `__builtins__` dict. -/
inductive GlobalEntry where
  | pdModule
  | builtinsDict (names : List String)
deriving DecidableEq

/-- The globals dict `g` built by `execute_pandas_local`:
`{"pd": pd, "__builtins__": {only the allowlisted builtins}}`. -/
def sandboxGlobals : List (String × GlobalEntry) :=
  [("pd", GlobalEntry.pdModule), ("__builtins__", GlobalEntry.builtinsDict sandboxBuiltinNames)]

/-- The locals dict threaded through `exec`. -/
abbrev Locals := List (String × PyVal)

/-- The effect of `exec(code_no_import, g, l)`: given the stripped code, the
globals namespace and the initial locals, it either raises (`.error`) or
terminates with the final locals dict.  Arbitrary Python evaluation is
outside the embedding, so it is an oracle parameter; `execute_pandas_local`
only ever applies it to `sandboxGlobals`. -/
abbrev ExecOracle := String → List (String × GlobalEntry) → Locals → Except String Locals

/-- `execute_pandas_local` from `tools/execute_pandas.py`: validate, strip the
sanctioned import, run the code in the restricted namespace with `df_in`
pre-bound, and require `df_out` to be a DataFrame. -/
def execute_pandas_local (execEnv : ExecOracle) (code : String) (df_in : DataFrame) :
    Except String DataFrame :=
  match pyValidate code with
  | some msg => Except.error msg
  | Option.none =>
    match execEnv (stripAllowedImport code) sandboxGlobals [("df_in", PyVal.df df_in)] with
    | Except.error e => Except.error e
    | Except.ok l2 =>
      match l2.lookup "df_out" with
      | some (PyVal.df d) => Except.ok d
      | _ => Except.error "Code did not produce df_out as a DataFrame."

/-- `^\s*import\s+(?!pandas\b)` (re.M) — the `bad_import` pattern of
`_has_required_contract` in `tools/english_to_pandas.py`. -/
def etpBadImportRE : RE :=
  seqAll [RE.bolM, wsStar, litRE "import", wsPlus, RE.nla (seqAll [litRE "pandas", RE.wb])]

/-- `_has_required_contract` from `tools/english_to_pandas.py`: the list of
contract-violation messages for a generated snippet (empty iff accepted). -/
def hasRequiredContract (code : String) : List String :=
  let s := code.data
  (if listContains s pandasImportLine then [] else ["Missing `import pandas as pd`."]) ++
  (if reSearchB dfCopyRE s then [] else ["Snippet must start with `df = df_in.copy()`."]) ++
  (if reSearchB dfOutRE s then []
   else ["Snippet must end with `df_out = df` (assign df_out)."]) ++
  (if reSearchB etpBadImportRE s then ["Only `import pandas as pd` is allowed (found other imports)."]
   else []) ++
  (if listContains s "read_csv(".data || listContains s "to_csv(".data ||
      listContains s "read_parquet(".data
   then ["No file I/O is allowed in the snippet."] else [])

/-- An observation: the small JSON dict appended to the trace for every step.
Fields absent from a given source dict are `Option.none`. -/
structure Obs where
  tool : Option String
  status : String
  typ : Option String := Option.none
  shape : Option (Nat × Nat) := Option.none
  columns_count : Option Nat := Option.none
  length : Option Nat := Option.none
  size : Option Nat := Option.none
  reason : Option String := Option.none
  error : Option String := Option.none
deriving DecidableEq

/-- The artifacts dict produced for one step. -/
abbrev Artifacts := List (String × PyVal)

/-- Python truthiness of a tool result.  A pandas DataFrame raises
(`The truth value of a DataFrame is ambiguous`); every other embedded value
has the standard Python truth value. -/
def pyTruthy : PyVal → Except String Bool
  | PyVal.df _ => Except.error "The truth value of a DataFrame is ambiguous."
  | PyVal.dict kvs => Except.ok (!kvs.isEmpty)
  | PyVal.listV xs => Except.ok (!xs.isEmpty)
  | PyVal.str s => Except.ok (!(s == ""))
  | PyVal.int n => Except.ok (!(n == 0))
  | PyVal.bool b => Except.ok b
  | PyVal.noneV => Except.ok false
  | PyVal.obj _ => Except.ok true

/-- Python `len`: defined for strings, lists, dicts and DataFrames (row
count); raises `TypeError` otherwise. -/
def pyLen : PyVal → Except String Nat
  | PyVal.str s => Except.ok s.length
  | PyVal.listV xs => Except.ok xs.length
  | PyVal.dict kvs => Except.ok kvs.length
  | PyVal.df d => Except.ok d.rows.length
  | _ => Except.error "TypeError: object has no len()"

/-- The registered per-tool adapter `_adapt_english_to_pandas` from
`llm_clients/openai_backend.py`: `code = (out or {}).get("code", "")`, then an
observation of type `code` with `length = len(code)` and an artifact dict
carrying only the code.  Values without a `.get` attribute raise; the
DataFrame case of the inner match is unreachable because DataFrame truthiness
already raises. -/
def _adapt_english_to_pandas (out : PyVal) : Except String (Obs × Artifacts) :=
  match pyTruthy out with
  | Except.error e => Except.error e
  | Except.ok t =>
    let base := if t then out else PyVal.dict []
    match base with
    | PyVal.dict kvs =>
      let code := (kvs.lookup "code").getD (PyVal.str "")
      match pyLen code with
      | Except.error e => Except.error e
      | Except.ok n =>
        Except.ok ({ tool := some "english_to_pandas", status := "ok",
                     typ := some "code", length := some n },
                   [("code", code)])
    | _ => Except.error "AttributeError: object has no attribute get"

/-- Is `out` a dict containing the key `"code"`? (guard of the special case
at the top of `_handle_result`). -/
def hasCodeKey : PyVal → Bool
  | PyVal.dict kvs => (kvs.lookup "code").isSome
  | _ => false

/-- The generic branches of `_handle_result`: DataFrame, dict/list, string,
scalar, fallback — in source order, dispatching on the runtime type. -/
def genericHandle (tool : String) (out : PyVal) : Obs × Artifacts :=
  match out with
  | PyVal.df d =>
    ({ tool := some tool, status := "ok", typ := some "dataframe",
       shape := some (d.rows.length, d.columns.length),
       columns_count := some d.columns.length },
     [("columns", PyVal.listV (d.columns.map PyVal.str)),
      ("df_head", PyVal.df (d.head 50)),
      ("df", PyVal.df d)])
  | PyVal.dict kvs =>
    ({ tool := some tool, status := "ok", typ := some "json", size := some kvs.length },
     [("value", out)])
  | PyVal.listV xs =>
    ({ tool := some tool, status := "ok", typ := some "json", size := some xs.length },
     [("value", out)])
  | PyVal.str s =>
    ({ tool := some tool, status := "ok", typ := some "text", length := some s.length },
     [("value", PyVal.str (s.take 2000))])
  | PyVal.int _ =>
    ({ tool := some tool, status := "ok", typ := some "scalar" }, [("value", out)])
  | PyVal.bool _ =>
    ({ tool := some tool, status := "ok", typ := some "scalar" }, [("value", out)])
  | PyVal.noneV =>
    ({ tool := some tool, status := "ok", typ := some "scalar" }, [("value", out)])
  | PyVal.obj r =>
    ({ tool := some tool, status := "ok", typ := some "unknown" }, [("repr", PyVal.str r)])

/-- `_handle_result` from `llm_clients/openai_backend.py`: the inline special
case for `english_to_pandas` dicts carrying a `code` key (observation of type
`code`, artifacts `code` + `raw`), then the `_TOOL_ADAPTERS` table (which
holds exactly `english_to_pandas`), then the generic type dispatch. -/
def _handle_result (tool : String) (out : PyVal) : Except String (Obs × Artifacts) :=
  if tool == "english_to_pandas" && hasCodeKey out then
    match out with
    | PyVal.dict kvs =>
      let v := (kvs.lookup "code").getD PyVal.noneV
      match pyTruthy v with
      | Except.error e => Except.error e
      | Except.ok t =>
        let code := if t then v else PyVal.str ""
        match pyLen code with
        | Except.error e => Except.error e
        | Except.ok n =>
          Except.ok ({ tool := some tool, status := "ok", typ := some "code",
                       length := some n },
                     [("code", code), ("raw", out)])
    | _ => Except.error "unreachable: guarded by hasCodeKey"
  else if tool == "english_to_pandas" then
    _adapt_english_to_pandas out
  else
    Except.ok (genericHandle tool out)

/-- One plan step: `{"tool": ..., "args": ...}`; either key may be absent. -/
structure Step where
  tool : Option String
  args : Option (List (String × PyVal))

/-- A plan: the executor only reads its `steps` list. -/
structure Plan where
  steps : List Step

/-- Keyword arguments passed to a tool callable. -/
abbrev Args := List (String × PyVal)

/-- A registered tool implementation: whether its signature declares a
`backend` parameter (detected by `inspect.signature` in the source), and the
callable itself.  The two registered callables wrap network/LLM calls, so
they enter as opaque parameters. -/
structure ToolImpl where
  needsBackend : Bool
  fn : Args → Except String PyVal

/-- `TOOL_REGISTRY` from `tools/registry.py`: exactly two names are mapped. -/
def TOOL_REGISTRY (load etp : ToolImpl) : String → Option ToolImpl := fun n =>
  if n = "load_biwenger_player_stats" then some load
  else if n = "english_to_pandas" then some etp
  else Option.none

/-- `args = step.get("args", {}) or {}`. -/
def stepArgs (step : Step) : Args :=
  match step.args with
  | Option.none => []
  | some a => a

/-- `call_kwargs`: the step args, plus the injected backend handle when the
callable declares a `backend` parameter. -/
def stepKwargs (step : Step) (impl : ToolImpl) : Args :=
  if impl.needsBackend then stepArgs step ++ [("backend", PyVal.obj "backend")]
  else stepArgs step

/-- The body of the per-step loop of `execute_plan_locally`: resolve the tool
(`skipped` observation when unresolved), invoke it, normalize the result; any
exception raised by the callable or the normalizer is caught and recorded as
an `error` observation with no artifacts. -/
def runStep (load etp : ToolImpl) (step : Step) : Obs × Option Artifacts :=
  match step.tool.bind (fun t => (TOOL_REGISTRY load etp t).map (fun impl => (t, impl))) with
  | Option.none =>
    ({ tool := step.tool, status := "skipped", reason := some "Unknown tool" }, Option.none)
  | some (t, impl) =>
    match impl.fn (stepKwargs step impl) with
    | Except.error e =>
      ({ tool := step.tool, status := "error", error := some e }, Option.none)
    | Except.ok out =>
      match _handle_result t out with
      | Except.error e =>
        ({ tool := step.tool, status := "error", error := some e }, Option.none)
      | Except.ok (obs, arts) => (obs, some arts)

/-- Decimal rendering of a natural number, as Python `str(i)` inside the
f-string `f"step_{i}"`. -/
def natDecimal (n : Nat) : List Char :=
  if h : n < 10 then [Char.ofNat (48 + n)]
  else natDecimal (n / 10) ++ [Char.ofNat (48 + n % 10)]
termination_by n
decreasing_by exact Nat.div_lt_self (by omega) (by omega)

/-- The artifacts key `f"step_{i}"`. -/
def stepKey (i : Nat) : String := String.mk ("step_".data ++ natDecimal i)

/-- The accumulated output of `execute_plan_locally`:
`{"observations": [...], "artifacts": {"step_0": ..., ...}}`. -/
structure PlanExecutionResult where
  observations : List Obs
  artifacts : List (String × Artifacts)

/-- The indexed loop of `execute_plan_locally`: one observation per step, and
an artifacts entry keyed `step_i` only when step `i` produced one. -/
def execSteps (load etp : ToolImpl) : Nat → List Step → PlanExecutionResult
  | _, [] => { observations := [], artifacts := [] }
  | i, step :: rest =>
    let o := runStep load etp step
    let r := execSteps load etp (i + 1) rest
    { observations := o.1 :: r.observations,
      artifacts :=
        match o.2 with
        | some a => (stepKey i, a) :: r.artifacts
        | Option.none => r.artifacts }

/-- `execute_plan_locally` from `llm_clients/openai_backend.py`: reject a
plan without a non-empty `steps` list, otherwise run every step in order. -/
def execute_plan_locally (load etp : ToolImpl) (plan : Plan) :
    Except String PlanExecutionResult :=
  if plan.steps.isEmpty then
    Except.error "Invalid PLAN: missing non-empty \x27steps\x27."
  else
    Except.ok (execSteps load etp 0 plan.steps)

/-- The execution output stored in `st.session_state.exec_out`: either the
result of `execute_plan_locally`, or the fallback dict
`{"observations": [], "artifacts": {}, "debug": {"error": ...}}` built when
execution raised. -/
inductive ExecOut where
  | success (r : PlanExecutionResult)
  | failure (errMsg : String)

/-- The plan-lifecycle session state of `streamlit_app.py`: `plan`,
`approved_plan`, and `exec_out`.  `Option.none` for `exec_out` covers both
its falsy initial value `{}` and the `None` written by the discard button
(the display layer only tests truthiness). -/
structure SessionState where
  plan : Option Plan
  approved_plan : Option Plan
  exec_out : Option ExecOut

/-- Session state right after initialization (or after `st.session_state.clear()`
followed by a rerun). -/
def initialSessionState : SessionState :=
  { plan := Option.none, approved_plan := Option.none, exec_out := Option.none }

/-- The user-triggered transitions of the lifecycle: a routed `plan` turn
stores the freshly produced plan; the three buttons approve, discard or
execute it; `clearSession` is the Clear-session button.  Buttons only exist
while a plan is displayed, and Execute is additionally disabled until a plan
is approved — those rendering guards are the `if` conditions. -/
inductive UiEvent where
  | proposePlan (p : Plan)
  | approveBtn
  | discardBtn
  | executeBtn
  | clearSession

/-- One Streamlit rerun handling one user event, translated from the
assignments to `st.session_state` in `streamlit_app.py`. -/
def uiStep (load etp : ToolImpl) (s : SessionState) : UiEvent → SessionState
  | UiEvent.proposePlan p => { s with plan := some p }
  | UiEvent.approveBtn =>
    if s.plan.isSome then { s with approved_plan := s.plan } else s
  | UiEvent.discardBtn =>
    if s.plan.isSome then
      { plan := Option.none, approved_plan := Option.none, exec_out := Option.none }
    else s
  | UiEvent.executeBtn =>
    match s.plan, s.approved_plan with
    | some _, some ap =>
      { s with exec_out := some (match execute_plan_locally load etp ap with
          | Except.ok r => ExecOut.success r
          | Except.error e => ExecOut.failure e) }
    | _, _ => s
  | UiEvent.clearSession => initialSessionState

/-- There is a token beginning with a double underscore at position `i`:
`\b` holds there (position `i` starts a word and the previous position, if
any, is not word material) and two underscores follow. -/
def dunderTokenAt (s : List Char) (i : Nat) : Prop :=
  wordBoundary s i = true ∧ s.get? i = some '_' ∧ s.get? (i + 1) = some '_'

instance (s : List Char) (i : Nat) : Decidable (dunderTokenAt s i) := by
  unfold dunderTokenAt
  infer_instance

/-- The builtin allowlist enumerated by the specification — "length, min,
max, sum, absolute value, rounding" — transcribed verbatim for comparison
with the namespace the code actually builds. -/
def specBuiltinAllowlist : List String := ["len", "min", "max", "sum", "abs", "round"]

/-! ### Helper lemmas -/

lemma digitChar_inj {a b : Nat} (ha : a < 10) (hb : b < 10)
    (h : Char.ofNat (48 + a) = Char.ofNat (48 + b)) : a = b := by
  have key : ∀ x y : Fin 10, Char.ofNat (48 + x.val) = Char.ofNat (48 + y.val) → x = y := by
    decide
  exact congrArg Fin.val (key ⟨a, ha⟩ ⟨b, hb⟩ h)

lemma natDecimal_ne_nil (n : Nat) : natDecimal n ≠ [] := by
  unfold natDecimal
  split <;> simp

lemma natDecimal_lt {n : Nat} (h : n < 10) : natDecimal n = [Char.ofNat (48 + n)] := by
  unfold natDecimal
  rw [dif_pos h]

lemma natDecimal_ge {n : Nat} (h : ¬ n < 10) :
    natDecimal n = natDecimal (n / 10) ++ [Char.ofNat (48 + n % 10)] := by
  conv_lhs => rw [natDecimal]
  rw [dif_neg h]

lemma natDecimal_inj : ∀ m n : Nat, natDecimal m = natDecimal n → m = n := by
  intro m
  induction m using Nat.strong_induction_on with
  | _ m ih =>
    intro n h
    by_cases hm : m < 10 <;> by_cases hn : n < 10
    · rw [natDecimal_lt hm, natDecimal_lt hn] at h
      exact digitChar_inj hm hn (List.cons.injEq .. ▸ h).1
    · rw [natDecimal_lt hm, natDecimal_ge hn] at h
      have hlen := congrArg List.length h
      have hne := natDecimal_ne_nil (n / 10)
      simp at hlen
      exact absurd hlen hne
    · rw [natDecimal_ge hm, natDecimal_lt hn] at h
      have hlen := congrArg List.length h
      have hne := natDecimal_ne_nil (m / 10)
      simp at hlen
      exact absurd hlen hne
    · rw [natDecimal_ge hm, natDecimal_ge hn] at h
      have h2 := congrArg List.reverse h
      simp at h2
      have hmod : m % 10 = n % 10 :=
        digitChar_inj (Nat.mod_lt _ (by omega)) (Nat.mod_lt _ (by omega)) h2.1
      have hdiv : m / 10 = n / 10 :=
        ih (m / 10) (Nat.div_lt_self (by omega) (by omega)) (n / 10) h2.2
      omega

lemma stepKey_inj {m n : Nat} (h : stepKey m = stepKey n) : m = n := by
  unfold stepKey at h
  have h2 : "step_".data ++ natDecimal m = "step_".data ++ natDecimal n :=
    congrArg String.data h
  exact natDecimal_inj _ _ (List.append_cancel_left h2)

lemma lookup_eq_none_of_not_mem {α : Type} (l : List (String × α)) (key : String)
    (h : ∀ a, (key, a) ∉ l) : l.lookup key = Option.none := by
  induction l with
  | nil => rfl
  | cons p rest ih =>
    obtain ⟨k, v⟩ := p
    have hk : ¬ key = k := by
      intro he
      exact h v (by rw [he]; exact List.mem_cons_self _ _)
    have hbeq : (key == k) = false := beq_eq_false_iff_ne.mpr hk
    simp only [List.lookup, hbeq]
    exact ih (fun a ha => h a (List.mem_cons_of_mem _ ha))

lemma execSteps_obs_length (load etp : ToolImpl) :
    ∀ (i : Nat) (steps : List Step),
      (execSteps load etp i steps).observations.length = steps.length := by
  intro i steps
  induction steps generalizing i with
  | nil => rfl
  | cons s rest ih => simpa [execSteps] using ih (i + 1)

lemma execSteps_obs_get (load etp : ToolImpl) :
    ∀ (i : Nat) (steps : List Step) (k : Nat) (hk : k < steps.length)
      (hk2 : k < (execSteps load etp i steps).observations.length),
      (execSteps load etp i steps).observations.get ⟨k, hk2⟩ =
        (runStep load etp (steps.get ⟨k, hk⟩)).1 := by
  intro i steps
  induction steps generalizing i with
  | nil => intro k hk; exact absurd hk (by simp)
  | cons s rest ih =>
    intro k hk hk2
    cases k with
    | zero => rfl
    | succ k =>
      have hk3 : k < rest.length := Nat.lt_of_succ_lt_succ hk
      have hk4 : k < (execSteps load etp (i + 1) rest).observations.length := by
        rw [execSteps_obs_length]; exact hk3
      exact ih (i + 1) k hk3 hk4

lemma execSteps_artifacts_mem (load etp : ToolImpl) :
    ∀ (i : Nat) (steps : List Step) (p : String) (a : Artifacts),
      (p, a) ∈ (execSteps load etp i steps).artifacts →
      ∃ (k : Nat) (hk : k < steps.length),
        p = stepKey (i + k) ∧ (runStep load etp (steps.get ⟨k, hk⟩)).2 = some a := by
  intro i steps
  induction steps generalizing i with
  | nil => intro p a h; simp [execSteps] at h
  | cons s rest ih =>
    intro p a h
    simp only [execSteps] at h
    cases h2 : (runStep load etp s).2 with
    | none =>
      rw [h2] at h
      obtain ⟨k, hk, h3, h4⟩ := ih (i + 1) p a h
      refine ⟨k + 1, Nat.succ_lt_succ hk, ?_, h4⟩
      rw [h3]
      congr 1
      omega
    | some arts =>
      rw [h2] at h
      rcases List.mem_cons.mp h with h3 | h3
      · simp only [Prod.mk.injEq] at h3
        refine ⟨0, Nat.succ_pos _, by simpa using h3.1, ?_⟩
        show (runStep load etp s).2 = some a
        rw [h2, h3.2]
      · obtain ⟨k, hk, h4, h5⟩ := ih (i + 1) p a h3
        refine ⟨k + 1, Nat.succ_lt_succ hk, ?_, h5⟩
        rw [h4]
        congr 1
        omega

lemma mem_joinSemicolon_infix (x : String) :
    ∀ l : List String, x ∈ l → x.data <:+: (joinSemicolon l).data := by
  intro l
  induction l with
  | nil => intro h; cases h
  | cons a rest ih =>
    intro h
    cases rest with
    | nil =>
      rcases List.mem_cons.mp h with h2 | h2
      · subst h2; exact List.infix_refl _
      · cases h2
    | cons b r2 =>
      rcases List.mem_cons.mp h with h2 | h2
      · subst h2
        show x.data <:+: (x ++ "; " ++ joinSemicolon (b :: r2)).data
        simp only [String.data_append]
        exact ((List.prefix_append _ _).isInfix).trans
          ((List.prefix_append _ _).isInfix)
      · have h3 := ih h2
        show x.data <:+: (a ++ "; " ++ joinSemicolon (b :: r2)).data
        simp only [String.data_append]
        exact h3.trans ((List.suffix_append _ _).isInfix)

lemma reMatch_dunder {s : List Char} {i : Nat} (fuel : Nat) (hf : 8 ≤ fuel)
    (hb : wordBoundary s i = true) (h1 : s.get? i = some '_')
    (h2 : s.get? (i + 1) = some '_') :
    reMatch fuel dunderRE s i ≠ [] := by
  obtain ⟨m, rfl⟩ : ∃ m, fuel = m + 8 := ⟨fuel - 8, by omega⟩
  rw [List.get?_eq_getElem?] at h1 h2
  simp [dunderRE, seqAll, litRE, reMatch, hb, h1, h2]

lemma reSearchB_dunder {s : List Char} {i : Nat} (h : dunderTokenAt s i) :
    reSearchB dunderRE s = true := by
  obtain ⟨hb, h1, h2⟩ := h
  have hi : i < s.length := (List.get?_eq_some.mp h1).1
  unfold reSearchB
  rw [List.any_eq_true]
  refine ⟨i, List.mem_range.mpr (by omega), ?_⟩
  have hm := reMatch_dunder (reFuel s) (by unfold reFuel; omega) hb h1 h2
  simpa using hm

lemma validateErrs_mem_missing_import {code : String}
    (h : listContains code.data pandasImportLine = false) :
    "Missing `import pandas as pd` (expected in snippet)." ∈ validateErrs code := by
  unfold validateErrs
  simp [h]

lemma validateErrs_mem_missing_copy {code : String}
    (h : reSearchB dfCopyRE code.data = false) :
    "Must start with `df = df_in.copy()` somewhere near the top." ∈ validateErrs code := by
  unfold validateErrs
  simp [h]

lemma validateErrs_mem_missing_out {code : String}
    (h : reSearchB dfOutRE code.data = false) :
    "Must assign `df_out = df`." ∈ validateErrs code := by
  unfold validateErrs
  simp [h]

lemma validateErrs_mem_forbidden {code : String}
    (h : forbiddenPatterns.any (fun p => reSearchB p code.data) = true) :
    "Forbidden operation." ∈ validateErrs code := by
  unfold validateErrs
  simp [h]

lemma pyValidate_some_of_mem {code msg : String} (hmem : msg ∈ validateErrs code) :
    pyValidate code = some (joinSemicolon (validateErrs code)) ∧
      msg.data <:+: (joinSemicolon (validateErrs code)).data := by
  have hne : validateErrs code ≠ [] := by
    intro h0
    rw [h0] at hmem
    cases hmem
  constructor
  · unfold pyValidate
    rw [if_neg (by simpa [List.isEmpty_iff] using hne)]
  · exact mem_joinSemicolon_infix _ _ hmem

lemma pyValidate_isSome_of_mem {code msg : String} (hmem : msg ∈ validateErrs code) :
    (pyValidate code).isSome = true := by
  rw [(pyValidate_some_of_mem hmem).1]
  rfl

lemma execute_pandas_error_of_some {execEnv : ExecOracle} {code : String}
    {df_in : DataFrame} {m : String} (h : pyValidate code = some m) :
    execute_pandas_local execEnv code df_in = Except.error m := by
  unfold execute_pandas_local
  rw [h]

lemma forbidden_any_of_dunder {code : String} (h : ∃ i, dunderTokenAt code.data i) :
    forbiddenPatterns.any (fun p => reSearchB p code.data) = true := by
  obtain ⟨i, hi⟩ := h
  rw [List.any_eq_true]
  exact ⟨dunderRE, by simp [forbiddenPatterns], reSearchB_dunder hi⟩

lemma forbidden_any_of_otherImport {code : String}
    (h : reSearchB otherImportRE code.data = true) :
    forbiddenPatterns.any (fun p => reSearchB p code.data) = true := by
  rw [List.any_eq_true]
  exact ⟨otherImportRE, by simp [forbiddenPatterns], h⟩

/-! ### Claims -/

/-- C10: any code string containing a token that begins with a double
underscore (dunder identifiers such as `__import__` or attribute accesses
such as `obj.__class__`) is rejected by `_validate`, so `execute_pandas_local`
raises before the restricted `exec` namespace is ever consulted — the error
result is the same for every possible behaviour of `exec`. -/
theorem dunder_rejected (code : String) (h : ∃ i, dunderTokenAt code.data i) :
    ∃ m, pyValidate code = some m ∧
      ∀ (execEnv : ExecOracle) (df_in : DataFrame),
        execute_pandas_local execEnv code df_in = Except.error m := by
  have hmem := validateErrs_mem_forbidden (forbidden_any_of_dunder h)
  obtain ⟨hval, _⟩ := pyValidate_some_of_mem hmem
  exact ⟨_, hval, fun execEnv df_in => execute_pandas_error_of_some hval⟩

/-- Witness for C10 at the concrete snippet `df.__class__`. -/
theorem dunder_rejected_witness :
    ∃ m, pyValidate "df.__class__" = some m ∧
      ∀ (execEnv : ExecOracle) (df_in : DataFrame),
        execute_pandas_local execEnv "df.__class__" df_in = Except.error m :=
  dunder_rejected "df.__class__" ⟨3, by decide⟩

/-- C3 counterexample: for code that violates only the security denylist (an
`import os` line inside otherwise contract-conforming code), `_validate`
raises exactly the generic message `Forbidden operation.` — a message that
names neither the disallowed import `os` nor any specific rule. -/
theorem validate_generic_forbidden_cx :
    pyValidate "import pandas as pd\ndf = df_in.copy()\nimport os\ndf_out = df" =
      some "Forbidden operation." ∧
    listContains "Forbidden operation.".data "os".data = false ∧
    listContains "Forbidden operation.".data "import".data = false := by
  decide

/-- C3 (amended): when `_validate` raises, the error names every violated
*structural* rule (missing import, missing input copy, missing output
binding); any security-denylist violation is reported by the single generic
`Forbidden operation.` message instead of one naming the rule; and code
containing a disallowed import (any import other than `import pandas as pd`,
e.g. `import os`) is rejected before the execution namespace is consulted —
`execute_pandas_local` returns that error for every behaviour of `exec`. -/
theorem validate_error_naming :
    (∀ code m : String, pyValidate code = some m →
      ((listContains code.data pandasImportLine = false →
          "Missing `import pandas as pd` (expected in snippet).".data <:+: m.data) ∧
        (reSearchB dfCopyRE code.data = false →
          "Must start with `df = df_in.copy()` somewhere near the top.".data <:+: m.data) ∧
        (reSearchB dfOutRE code.data = false →
          "Must assign `df_out = df`.".data <:+: m.data) ∧
        (forbiddenPatterns.any (fun p => reSearchB p code.data) = true →
          "Forbidden operation.".data <:+: m.data))) ∧
    (∀ (code : String) (df_in : DataFrame) (execEnv : ExecOracle),
      reSearchB otherImportRE code.data = true →
      ∃ m, pyValidate code = some m ∧
        execute_pandas_local execEnv code df_in = Except.error m) := by
  constructor
  · intro code m hm
    refine ⟨fun h => ?_, fun h => ?_, fun h => ?_, fun h => ?_⟩
    · obtain ⟨h1, h2⟩ := pyValidate_some_of_mem (validateErrs_mem_missing_import h)
      rw [h1] at hm
      exact Option.some.inj hm ▸ h2
    · obtain ⟨h1, h2⟩ := pyValidate_some_of_mem (validateErrs_mem_missing_copy h)
      rw [h1] at hm
      exact Option.some.inj hm ▸ h2
    · obtain ⟨h1, h2⟩ := pyValidate_some_of_mem (validateErrs_mem_missing_out h)
      rw [h1] at hm
      exact Option.some.inj hm ▸ h2
    · obtain ⟨h1, h2⟩ := pyValidate_some_of_mem (validateErrs_mem_forbidden h)
      rw [h1] at hm
      exact Option.some.inj hm ▸ h2
  · intro code df_in execEnv h
    obtain ⟨h1, _⟩ :=
      pyValidate_some_of_mem (validateErrs_mem_forbidden (forbidden_any_of_otherImport h))
    exact ⟨_, h1, execute_pandas_error_of_some h1⟩

/-- Witness for C3 (amended) at the concrete `import os` snippet. -/
theorem validate_error_naming_witness :
    ∃ m, pyValidate "import pandas as pd\ndf = df_in.copy()\nimport os\ndf_out = df" =
        some m ∧
      execute_pandas_local (fun _ _ l => Except.ok l)
          "import pandas as pd\ndf = df_in.copy()\nimport os\ndf_out = df" ⟨[], []⟩ =
        Except.error m :=
  validate_error_naming.2 _ ⟨[], []⟩ _ (by decide)

/-- C5 counterexample: a snippet containing a *second* import statement — a
duplicated `import pandas as pd` line — is accepted by both `_validate` and
`_has_required_contract`, contradicting the claim that any code containing a
second import statement is rejected. -/
theorem validate_duplicate_import_cx :
    pyValidate
        "import pandas as pd\nimport pandas as pd\ndf = df_in.copy()\ndf_out = df" =
      Option.none ∧
    hasRequiredContract
        "import pandas as pd\nimport pandas as pd\ndf = df_in.copy()\ndf_out = df" = [] ∧
    listContains
        "import pandas as pd\nimport pandas as pd\ndf = df_in.copy()\ndf_out = df".data
        "import pandas as pd\nimport pandas as pd".data = true := by
  decide

/-- C5 (amended): both validators accept the canonical three-part shape, and
reject code missing the sanctioned import substring, missing the input-copy
assignment, missing the `df_out` assignment, or containing an import of
anything other than the sanctioned pandas form (a literal duplicate of the
sanctioned import line, however, is accepted). -/
theorem validate_contract_shape :
    (pyValidate "import pandas as pd\ndf = df_in.copy()\ndf_out = df" = Option.none ∧
      hasRequiredContract "import pandas as pd\ndf = df_in.copy()\ndf_out = df" = []) ∧
    (∀ code : String, listContains code.data pandasImportLine = false →
      (pyValidate code).isSome = true ∧ hasRequiredContract code ≠ []) ∧
    (∀ code : String, reSearchB dfCopyRE code.data = false →
      (pyValidate code).isSome = true ∧ hasRequiredContract code ≠ []) ∧
    (∀ code : String, reSearchB dfOutRE code.data = false →
      (pyValidate code).isSome = true ∧ hasRequiredContract code ≠ []) ∧
    (∀ code : String, reSearchB otherImportRE code.data = true →
      (pyValidate code).isSome = true) ∧
    (∀ code : String, reSearchB etpBadImportRE code.data = true →
      hasRequiredContract code ≠ []) := by
  refine ⟨by decide, ?_, ?_, ?_, ?_, ?_⟩
  · intro code h
    refine ⟨pyValidate_isSome_of_mem (validateErrs_mem_missing_import h), ?_⟩
    unfold hasRequiredContract
    simp [h]
  · intro code h
    refine ⟨pyValidate_isSome_of_mem (validateErrs_mem_missing_copy h), ?_⟩
    unfold hasRequiredContract
    simp [h]
  · intro code h
    refine ⟨pyValidate_isSome_of_mem (validateErrs_mem_missing_out h), ?_⟩
    unfold hasRequiredContract
    simp [h]
  · intro code h
    exact pyValidate_isSome_of_mem
      (validateErrs_mem_forbidden (forbidden_any_of_otherImport h))
  · intro code h
    unfold hasRequiredContract
    simp [h]

/-- Witness for C5 (amended) at the empty snippet, which is missing the
sanctioned import. -/
theorem validate_contract_shape_witness :
    (pyValidate "").isSome = true ∧ hasRequiredContract "" ≠ [] :=
  validate_contract_shape.2.1 "" (by decide)

/-- C2 counterexample: the `__builtins__` allowlist that
`execute_pandas_local` installs contains `range`, which is not among the
builtins the specification enumerates (length, min, max, sum, absolute
value, rounding) — so the namespace does expose a builtin beyond that list. -/
theorem sandbox_builtins_range_cx :
    "range" ∈ sandboxBuiltinNames ∧ "range" ∉ specBuiltinAllowlist := by
  decide

/-- C2 (amended): the execution namespace built by `execute_pandas_local`
has exactly the keys `pd` and `__builtins__`; its `__builtins__` entry holds
exactly `len`, `range`, `min`, `max`, `sum`, `abs`, `round`; and execution
has no ambient access beyond that namespace — two `exec` behaviours that
agree on `sandboxGlobals` make `execute_pandas_local` agree on every input. -/
theorem sandbox_namespace_exact :
    sandboxGlobals.map Prod.fst = ["pd", "__builtins__"] ∧
    sandboxGlobals.lookup "__builtins__" =
      some (GlobalEntry.builtinsDict ["len", "range", "min", "max", "sum", "abs", "round"]) ∧
    (∀ e1 e2 : ExecOracle,
      (∀ c l, e1 c sandboxGlobals l = e2 c sandboxGlobals l) →
      ∀ (code : String) (df_in : DataFrame),
        execute_pandas_local e1 code df_in = execute_pandas_local e2 code df_in) := by
  refine ⟨rfl, rfl, ?_⟩
  intro e1 e2 hagree code df_in
  unfold execute_pandas_local
  cases pyValidate code with
  | some m => rfl
  | none => rw [hagree]

/-- Witness for C2 (amended): an oracle that only answers on the sandbox
namespace and errors on any other namespace agrees with the unconditional
oracle. -/
theorem sandbox_namespace_exact_witness :
    execute_pandas_local
        (fun _ g l => if g = sandboxGlobals then Except.ok l else Except.error "ambient")
        "import pandas as pd\ndf = df_in.copy()\ndf_out = df" ⟨[], []⟩ =
      execute_pandas_local (fun _ _ l => Except.ok l)
        "import pandas as pd\ndf = df_in.copy()\ndf_out = df" ⟨[], []⟩ :=
  sandbox_namespace_exact.2.2 _ _ (fun _ _ => by rw [if_pos rfl]) _ ⟨[], []⟩

/-- C6: `execute_pandas_local` succeeds exactly when validation passes and
the executed code leaves `df_out` bound to a DataFrame; when `df_out` is
unset or bound to any non-DataFrame value the call raises the contract error
and returns no dataset. -/
theorem execute_pandas_df_out_only (execEnv : ExecOracle) (code : String)
    (df_in : DataFrame) :
    (∀ d : DataFrame,
      execute_pandas_local execEnv code df_in = Except.ok d ↔
        (pyValidate code = Option.none ∧
          ∃ l2, execEnv (stripAllowedImport code) sandboxGlobals
              [("df_in", PyVal.df df_in)] = Except.ok l2 ∧
            l2.lookup "df_out" = some (PyVal.df d))) ∧
    (∀ l2 : Locals, pyValidate code = Option.none →
      execEnv (stripAllowedImport code) sandboxGlobals
          [("df_in", PyVal.df df_in)] = Except.ok l2 →
      (∀ d : DataFrame, l2.lookup "df_out" ≠ some (PyVal.df d)) →
      execute_pandas_local execEnv code df_in =
        Except.error "Code did not produce df_out as a DataFrame.") := by
  constructor
  · intro d
    unfold execute_pandas_local
    cases hv : pyValidate code with
    | some m => simp
    | none =>
      cases he : execEnv (stripAllowedImport code) sandboxGlobals
          [("df_in", PyVal.df df_in)] with
      | error e => simp
      | ok l2 =>
        cases hl : l2.lookup "df_out" with
        | none => simp [hl]
        | some v => cases v <;> simp [hl]
  · intro l2 hv he hnd
    unfold execute_pandas_local
    rw [hv, he]
    cases hl : l2.lookup "df_out" with
    | none => simp [hl]
    | some v =>
      cases v with
      | df d => exact absurd hl (hnd d)
      | dict kvs => simp [hl]
      | listV xs => simp [hl]
      | str s => simp [hl]
      | int n => simp [hl]
      | bool b => simp [hl]
      | noneV => simp [hl]
      | obj r => simp [hl]

/-- Witness for C6: validated canonical code whose execution binds `df_out`
to the scalar `3` makes `execute_pandas_local` fail with the contract error. -/
theorem execute_pandas_df_out_only_witness :
    execute_pandas_local
        (fun _ _ l => Except.ok (("df_out", PyVal.int 3) :: l))
        "import pandas as pd\ndf = df_in.copy()\ndf_out = df" ⟨[], []⟩ =
      Except.error "Code did not produce df_out as a DataFrame." :=
  (execute_pandas_df_out_only _ _ _).2 _ (by decide) rfl
    (fun d h => by simp [List.lookup] at h)

/-- C1: for every plan the executor accepts (a non-empty `steps` list) and
any behaviour of the registered tools, `execute_plan_locally` returns a
result with exactly one observation per step, and the observation at index
`k` is exactly the one produced by running step `k` — regardless of how many
steps are skipped or fail. -/
theorem execute_plan_locally_obs_aligned (load etp : ToolImpl) (plan : Plan)
    (hne : plan.steps ≠ []) :
    ∃ r, execute_plan_locally load etp plan = Except.ok r ∧
      r.observations.length = plan.steps.length ∧
      ∀ (k : Nat) (hk : k < plan.steps.length) (hk2 : k < r.observations.length),
        r.observations.get ⟨k, hk2⟩ = (runStep load etp (plan.steps.get ⟨k, hk⟩)).1 := by
  refine ⟨execSteps load etp 0 plan.steps, ?_, ?_, ?_⟩
  · unfold execute_plan_locally
    rw [if_neg (by simpa [List.isEmpty_iff] using hne)]
  · exact execSteps_obs_length load etp 0 plan.steps
  · intro k hk hk2
    exact execSteps_obs_get load etp 0 plan.steps k hk hk2

/-- Witness for C1: a three-step plan (a succeeding tool, a raising tool, an
unknown tool) yields exactly three index-aligned observations. -/
theorem execute_plan_locally_obs_aligned_witness :
    ∃ r,
      execute_plan_locally
          { needsBackend := false, fn := fun _ => Except.ok PyVal.noneV }
          { needsBackend := true, fn := fun _ => Except.error "boom" }
          { steps :=
              [{ tool := some "load_biwenger_player_stats", args := some [] },
               { tool := some "english_to_pandas", args := Option.none },
               { tool := some "made_up_tool", args := Option.none }] } =
        Except.ok r ∧
      r.observations.length =
        ({ steps :=
            [{ tool := some "load_biwenger_player_stats", args := some [] },
             { tool := some "english_to_pandas", args := Option.none },
             { tool := some "made_up_tool", args := Option.none }] } : Plan).steps.length ∧
      ∀ (k : Nat)
        (hk : k < ({ steps :=
            [{ tool := some "load_biwenger_player_stats", args := some [] },
             { tool := some "english_to_pandas", args := Option.none },
             { tool := some "made_up_tool", args := Option.none }] } : Plan).steps.length)
        (hk2 : k < r.observations.length),
        r.observations.get ⟨k, hk2⟩ =
          (runStep { needsBackend := false, fn := fun _ => Except.ok PyVal.noneV }
            { needsBackend := true, fn := fun _ => Except.error "boom" }
            (({ steps :=
                [{ tool := some "load_biwenger_player_stats", args := some [] },
                 { tool := some "english_to_pandas", args := Option.none },
                 { tool := some "made_up_tool", args := Option.none }] } : Plan).steps.get
              ⟨k, hk⟩)).1 :=
  execute_plan_locally_obs_aligned _ _ _ (by simp)

/-- C7: a step whose registered tool raises is recorded as an `error`
observation carrying the step's tool name and the raised message, stores no
artifact under its `step_i` key, and the whole plan still executes — the
result is `ok` with one observation per step. -/
theorem step_error_isolated (load etp : ToolImpl) (plan : Plan) (i : Nat)
    (hi : i < plan.steps.length) (t : String) (impl : ToolImpl) (e : String)
    (ht : (plan.steps.get ⟨i, hi⟩).tool = some t)
    (hreg : TOOL_REGISTRY load etp t = some impl)
    (hfail : impl.fn (stepKwargs (plan.steps.get ⟨i, hi⟩) impl) = Except.error e) :
    ∃ r, execute_plan_locally load etp plan = Except.ok r ∧
      r.observations.length = plan.steps.length ∧
      (∀ hk2 : i < r.observations.length,
        r.observations.get ⟨i, hk2⟩ =
          { tool := some t, status := "error", error := some e }) ∧
      r.artifacts.lookup (stepKey i) = Option.none := by
  have hnil : plan.steps ≠ [] := by
    intro h0
    rw [h0] at hi
    simp at hi
  have hrun : runStep load etp (plan.steps.get ⟨i, hi⟩) =
      ({ tool := some t, status := "error", error := some e }, Option.none) := by
    unfold runStep
    rw [ht]
    rw [List.get_eq_getElem] at hfail
    simp [hreg, hfail, ht]
  refine ⟨execSteps load etp 0 plan.steps, ?_, execSteps_obs_length load etp 0 plan.steps,
    ?_, ?_⟩
  · unfold execute_plan_locally
    rw [if_neg (by simpa [List.isEmpty_iff] using hnil)]
  · intro hk2
    rw [execSteps_obs_get load etp 0 plan.steps i hi hk2, hrun]
  · apply lookup_eq_none_of_not_mem
    intro a hmem
    obtain ⟨k, hk, hkey, hart⟩ := execSteps_artifacts_mem load etp 0 plan.steps _ a hmem
    have hik : i = k := stepKey_inj (by simpa using hkey)
    subst hik
    rw [(rfl : plan.steps.get ⟨i, hk⟩ = plan.steps.get ⟨i, hi⟩), hrun] at hart
    cases hart

/-- Witness for C7: a one-step plan whose only tool raises `boom`. -/
theorem step_error_isolated_witness :
    ∃ r,
      execute_plan_locally
          { needsBackend := false, fn := fun _ => Except.error "boom" }
          { needsBackend := false, fn := fun _ => Except.ok PyVal.noneV }
          { steps := [{ tool := some "load_biwenger_player_stats", args := Option.none }] } =
        Except.ok r ∧
      r.observations.length = 1 ∧
      (∀ hk2 : 0 < r.observations.length,
        r.observations.get ⟨0, hk2⟩ =
          { tool := some "load_biwenger_player_stats", status := "error",
            error := some "boom" }) ∧
      r.artifacts.lookup (stepKey 0) = Option.none :=
  step_error_isolated
    { needsBackend := false, fn := fun _ => Except.error "boom" }
    { needsBackend := false, fn := fun _ => Except.ok PyVal.noneV }
    { steps := [{ tool := some "load_biwenger_player_stats", args := Option.none }] }
    0 (by simp) "load_biwenger_player_stats"
    { needsBackend := false, fn := fun _ => Except.error "boom" } "boom"
    rfl rfl rfl

/-- C8: a step naming a tool that is not in `TOOL_REGISTRY` does not make the
plan raise: it yields a `skipped` observation with reason `Unknown tool`,
stores no artifact for that step, and the remaining steps still run (one
observation per step). -/
theorem unknown_tool_skipped (load etp : ToolImpl) (plan : Plan) (i : Nat)
    (hi : i < plan.steps.length) (t : String)
    (ht : (plan.steps.get ⟨i, hi⟩).tool = some t)
    (h1 : t ≠ "load_biwenger_player_stats") (h2 : t ≠ "english_to_pandas") :
    ∃ r, execute_plan_locally load etp plan = Except.ok r ∧
      r.observations.length = plan.steps.length ∧
      (∀ hk2 : i < r.observations.length,
        r.observations.get ⟨i, hk2⟩ =
          { tool := some t, status := "skipped", reason := some "Unknown tool" }) ∧
      r.artifacts.lookup (stepKey i) = Option.none := by
  have hnil : plan.steps ≠ [] := by
    intro h0
    rw [h0] at hi
    simp at hi
  have hrun : runStep load etp (plan.steps.get ⟨i, hi⟩) =
      ({ tool := some t, status := "skipped", reason := some "Unknown tool" },
        Option.none) := by
    unfold runStep
    rw [ht]
    simp [TOOL_REGISTRY, h1, h2, ht]
  refine ⟨execSteps load etp 0 plan.steps, ?_, execSteps_obs_length load etp 0 plan.steps,
    ?_, ?_⟩
  · unfold execute_plan_locally
    rw [if_neg (by simpa [List.isEmpty_iff] using hnil)]
  · intro hk2
    rw [execSteps_obs_get load etp 0 plan.steps i hi hk2, hrun]
  · apply lookup_eq_none_of_not_mem
    intro a hmem
    obtain ⟨k, hk, hkey, hart⟩ := execSteps_artifacts_mem load etp 0 plan.steps _ a hmem
    have hik : i = k := stepKey_inj (by simpa using hkey)
    subst hik
    rw [(rfl : plan.steps.get ⟨i, hk⟩ = plan.steps.get ⟨i, hi⟩), hrun] at hart
    cases hart

/-- Witness for C8: a one-step plan naming the unregistered tool
`made_up_tool`. -/
theorem unknown_tool_skipped_witness :
    ∃ r,
      execute_plan_locally
          { needsBackend := false, fn := fun _ => Except.ok PyVal.noneV }
          { needsBackend := false, fn := fun _ => Except.ok PyVal.noneV }
          { steps := [{ tool := some "made_up_tool", args := Option.none }] } =
        Except.ok r ∧
      r.observations.length = 1 ∧
      (∀ hk2 : 0 < r.observations.length,
        r.observations.get ⟨0, hk2⟩ =
          { tool := some "made_up_tool", status := "skipped",
            reason := some "Unknown tool" }) ∧
      r.artifacts.lookup (stepKey 0) = Option.none :=
  unknown_tool_skipped
    { needsBackend := false, fn := fun _ => Except.ok PyVal.noneV }
    { needsBackend := false, fn := fun _ => Except.ok PyVal.noneV }
    { steps := [{ tool := some "made_up_tool", args := Option.none }] }
    0 (by simp) "made_up_tool" rfl (by decide) (by decide)

/-- C9: for any tool without a registered adapter, a DataFrame result is
normalized to an observation of type `dataframe` whose shape is the row and
column count, with an artifact dict carrying the column list, the bounded
50-row head preview and the full DataFrame; for the code-generation tool
`english_to_pandas` returning a mapping with a string `code` field, the
override produces an observation of type `code` with length `len(code)` and
an artifact dict carrying the code string plus the raw mapping.  (The claim
itself scopes the DataFrame clause to tools without an override: for the
code-generation tool the override "exclusively determines the output".) -/
theorem normalizer_dataframe_and_code :
    (∀ (tool : String) (d : DataFrame), tool ≠ "english_to_pandas" →
      _handle_result tool (PyVal.df d) =
        Except.ok
          ({ tool := some tool, status := "ok", typ := some "dataframe",
             shape := some (d.rows.length, d.columns.length),
             columns_count := some d.columns.length },
           [("columns", PyVal.listV (d.columns.map PyVal.str)),
            ("df_head", PyVal.df (d.head 50)),
            ("df", PyVal.df d)])) ∧
    (∀ (kvs : List (String × PyVal)) (s : String),
      kvs.lookup "code" = some (PyVal.str s) →
      _handle_result "english_to_pandas" (PyVal.dict kvs) =
        Except.ok
          ({ tool := some "english_to_pandas", status := "ok", typ := some "code",
             length := some s.length },
           [("code", PyVal.str s), ("raw", PyVal.dict kvs)])) := by
  constructor
  · intro tool d htool
    unfold _handle_result
    rw [if_neg (by simp [hasCodeKey]), if_neg (by simpa using htool)]
    rfl
  · intro kvs s hcode
    unfold _handle_result
    rw [if_pos (by simp [hasCodeKey, hcode])]
    simp only [hcode, Option.getD_some]
    by_cases hs : s = ""
    · subst hs
      simp [pyTruthy, pyLen]
    · have hsb : (s == "") = false := beq_eq_false_iff_ne.mpr hs
      simp [pyTruthy, pyLen, hsb]

/-- Witness for C9: a concrete 2-row/1-column table under the data-loading
tool, and a concrete code mapping under the code-generation tool. -/
theorem normalizer_dataframe_and_code_witness :
    _handle_result "load_biwenger_player_stats"
        (PyVal.df { columns := ["a"], rows := [["1"], ["2"]] }) =
      Except.ok
        ({ tool := some "load_biwenger_player_stats", status := "ok",
           typ := some "dataframe", shape := some (2, 1), columns_count := some 1 },
         [("columns", PyVal.listV [PyVal.str "a"]),
          ("df_head", PyVal.df { columns := ["a"], rows := [["1"], ["2"]] }),
          ("df", PyVal.df { columns := ["a"], rows := [["1"], ["2"]] })]) ∧
    _handle_result "english_to_pandas" (PyVal.dict [("code", PyVal.str "df_out = df")]) =
      Except.ok
        ({ tool := some "english_to_pandas", status := "ok", typ := some "code",
           length := some 11 },
         [("code", PyVal.str "df_out = df"),
          ("raw", PyVal.dict [("code", PyVal.str "df_out = df")])]) :=
  ⟨(normalizer_dataframe_and_code.1 "load_biwenger_player_stats"
      { columns := ["a"], rows := [["1"], ["2"]] } (by decide)),
   (normalizer_dataframe_and_code.2 [("code", PyVal.str "df_out = df")] "df_out = df" rfl)⟩

/-- C4 counterexample: from a session holding an approved plan and an
execution output, proposing a fresh (different) plan leaves both the stale
approval and the stale execution output in place — contradicting the claim
that proposing resets them. -/
theorem propose_keeps_stale_state_cx :
    (uiStep
        { needsBackend := false, fn := fun _ => Except.ok PyVal.noneV }
        { needsBackend := false, fn := fun _ => Except.ok PyVal.noneV }
        { plan := some { steps := [] }, approved_plan := some { steps := [] },
          exec_out := some (ExecOut.failure "old run") }
        (UiEvent.proposePlan
          { steps := [{ tool := some "load_biwenger_player_stats", args := Option.none }] })
      ).approved_plan = some { steps := [] } ∧
    (uiStep
        { needsBackend := false, fn := fun _ => Except.ok PyVal.noneV }
        { needsBackend := false, fn := fun _ => Except.ok PyVal.noneV }
        { plan := some { steps := [] }, approved_plan := some { steps := [] },
          exec_out := some (ExecOut.failure "old run") }
        (UiEvent.proposePlan
          { steps := [{ tool := some "load_biwenger_player_stats", args := Option.none }] })
      ).exec_out = some (ExecOut.failure "old run") ∧
    ({ steps := [] } : Plan) ≠
      { steps := [{ tool := some "load_biwenger_player_stats", args := Option.none }] } := by
  refine ⟨rfl, rfl, ?_⟩
  intro h
  have h2 := congrArg Plan.steps h
  simp at h2

/-- C4 (amended): proposing a new plan overwrites only the `plan` slot of
the session state; the prior plan's approval and execution output are left
untouched (they are cleared only by the discard button, or overwritten by a
later approve/execute). -/
theorem propose_replaces_only_plan (load etp : ToolImpl) (s : SessionState) (p : Plan) :
    uiStep load etp s (UiEvent.proposePlan p) = { s with plan := some p } := rfl
